import Mathlib

/-!
Verification of the PReviewer desktop application (`pr_reviwer_app.py`,
latest revision under `python-previewer/`).

The development shallowly embeds the three non-cosmetic procedures of the
program:

* `getGitDiffResult` — the body of `_get_git_diff` (the spec's DiffResolver),
  with the external `git` subprocess abstracted into a `GitEnv` oracle and
  the sequence of issued subprocess calls recorded as a trace;
* `callOllamaApi` / `callOllamaStreaming` / `callOllamaStandard` — the bodies
  of the corresponding methods (the spec's ReviewInvoker), with the HTTP
  world abstracted into environments and the issued requests recorded,
  timeouts included, as a trace;
* `runReviewBody` / `runReview` — the body of `_run_review` (the spec's
  Orchestrator), with the `try/finally` working-directory discipline made
  explicit, plus a small transition system `uiStep` for the start/stop
  button wiring of `start_review_thread`, `stop_review` and
  `RoundedButton._on_click`.

All definitions are executable and follow the Python control flow branch by
branch; the theorems at the end settle the frozen claims.
-/

namespace PReviewer

/-! ## DiffResolver: `_get_git_diff` -/

/-- Python's `str.strip()` with no argument: remove leading and trailing
whitespace.  Defined by structural recursion on the character list so that
concrete instances evaluate inside the kernel. -/
def pyStrip (s : String) : String :=
  String.mk (((s.data.dropWhile Char.isWhitespace).reverse.dropWhile Char.isWhitespace).reverse)

example : pyStrip "  diff body\n" = "diff body" := by decide

example : pyStrip "\n  \n" = "" := by decide

/-- One `subprocess.run` invocation of the external `git` tool, as issued by
`_get_git_diff` (lines 1293-1379 of the latest revision). -/
inductive GitCall where
  /-- Command `git rev-parse --verify refs/heads/<branch>`. -/
  | revParseVerify (branch : String)
  /-- Command `git merge-base <base> <target>`. -/
  | mergeBase (base target : String)
  /-- Command `git diff --no-prefix -U3 <mergeBaseCommit> <target>`. -/
  | diff (mergeBaseCommit target : String)
  deriving DecidableEq, Repr

/-- Oracle for the external `git` executable.  `localBranches` decides
`rev-parse --verify refs/heads/<b>` (exit 0 iff the branch is listed);
`mergeBase` returns the stdout of `git merge-base` or `none` for a non-zero
exit (`subprocess.CalledProcessError`, e.g. unrelated histories or an
unknown ref); `diffOut` likewise for `git diff`. -/
structure GitEnv where
  localBranches : List String
  mergeBase : String → String → Option String
  diffOut : String → String → Option String

/-- The distinguishable failure modes of `_get_git_diff`: the Python returns
`None` in every failure case, but prints a different message per case, which
is what makes the cases observable.  `refNotFound` is the pair of
"branch not found" messages (lines 1313 and 1336); `gitCommandFailed` is the
generic `except subprocess.CalledProcessError` handler (line 1369) and
carries the failing command, as the handler prints `e.cmd`. -/
inductive GitDiffError where
  | refNotFound (ref : String)
  | gitCommandFailed (cmd : GitCall)
  deriving DecidableEq, Repr

/-- Shallow embedding of `_get_git_diff(base_branch, target_commit)`
(latest revision, lines 1293-1379).  `available` is the list of labels of
the GUI base-branch dropdown (excluding the "Select repository first..."
sentinel), which the code consults before verifying the target.  Returns
the result together with the trace of git subprocess calls issued.

Control flow mirrored from the source:
1. if `base_branch != "HEAD"`: `rev-parse --verify` it; on failure return
   `None` ("local base branch not found");
2. if `target_commit != "HEAD"` and it appears among the dropdown labels:
   `rev-parse --verify` it; on failure return `None` ("target branch not
   found locally"); a target absent from the dropdown is not verified;
3. `git merge-base base target` with `check=True`; stdout is stripped;
4. `git diff --no-prefix -U3 <merge_base> <target>`; stdout is stripped and
   returned; any `CalledProcessError` from steps 3-4 reaches the generic
   handler. -/
def getGitDiffResult (env : GitEnv) (available : List String)
    (baseBranch targetCommit : String) : Except GitDiffError String × List GitCall :=
  let baseCalls : List GitCall :=
    if baseBranch == "HEAD" then [] else [GitCall.revParseVerify baseBranch]
  if baseBranch != "HEAD" && !(env.localBranches.contains baseBranch) then
    (Except.error (GitDiffError.refNotFound baseBranch), baseCalls)
  else
    let targetChecked : Bool := targetCommit != "HEAD" && available.contains targetCommit
    let targetCalls : List GitCall :=
      if targetChecked then [GitCall.revParseVerify targetCommit] else []
    if targetChecked && !(env.localBranches.contains targetCommit) then
      (Except.error (GitDiffError.refNotFound targetCommit), baseCalls ++ targetCalls)
    else
      let pre := baseCalls ++ targetCalls
      match env.mergeBase baseBranch targetCommit with
      | none =>
          (Except.error (GitDiffError.gitCommandFailed (GitCall.mergeBase baseBranch targetCommit)),
           pre ++ [GitCall.mergeBase baseBranch targetCommit])
      | some mbOut =>
          let mbCommit := pyStrip mbOut
          match env.diffOut mbCommit targetCommit with
          | none =>
              (Except.error (GitDiffError.gitCommandFailed (GitCall.diff mbCommit targetCommit)),
               pre ++ [GitCall.mergeBase baseBranch targetCommit, GitCall.diff mbCommit targetCommit])
          | some d =>
              (Except.ok (pyStrip d),
               pre ++ [GitCall.mergeBase baseBranch targetCommit, GitCall.diff mbCommit targetCommit])

/-- The value `_get_git_diff` actually hands back to `_run_review`: the
Python collapses every failure to `None`. -/
def getGitDiff (env : GitEnv) (available : List String)
    (baseBranch targetCommit : String) : Option String :=
  (getGitDiffResult env available baseBranch targetCommit).1.toOption

example :
    getGitDiff
      { localBranches := ["main", "feature"],
        mergeBase := fun _ _ => some "abc123\n",
        diffOut := fun _ _ => some "diff body\n" }
      ["main", "feature"] "main" "feature" = some "diff body" := by
  decide

example :
    getGitDiff
      { localBranches := ["main"],
        mergeBase := fun _ _ => some "abc123",
        diffOut := fun _ _ => some "x" }
      ["main"] "nope" "HEAD" = none := by
  decide

/-! ## ReviewInvoker: `_call_ollama_api` and helpers

The cancellation flag `stop_review_flag` is modelled as a single boolean
`cancel`: the value every checkpoint of the run observes.  (The flag is only
ever set, never cleared, during a run, so a run in which the flag is set
before the first checkpoint observes `true` everywhere.) -/

/-- One HTTP request issued by the program, with the connect/read timeouts
passed to `requests` recorded verbatim. -/
inductive HttpCall where
  /-- Call `requests.get(version_url, timeout=(c, r))` (line 1410). -/
  | getVersion (connectTimeout readTimeout : Nat)
  /-- Call `requests.post(ollama_url, json with model, prompt and stream, timeout=(c, r))`. -/
  | postGenerate (model prompt : String) (stream : Bool) (connectTimeout readTimeout : Nat)
  deriving DecidableEq, Repr

/-- Outcome of issuing one HTTP request: a response with a status code, or
one of the `requests` exceptions raised instead. -/
inductive HttpOutcome where
  | ok (status : Nat)
  | connError
  | timeout
  | otherError
  deriving DecidableEq, Repr

/-- Exceptions that can escape `_call_ollama_streaming` /
`_call_ollama_standard` into the handlers of `_call_ollama_api`. -/
inductive OllamaError where
  | connError
  | timeout
  | httpStatus (status : Nat)
  | jsonDecode
  | other
  deriving DecidableEq, Repr

/-- One non-empty line of the newline-delimited JSON stream, as seen by the
loop of `_call_ollama_streaming` (lines 1523-1559): either a line that
`json.loads` rejects (skipped by the `except json.JSONDecodeError: continue`),
or a parsed object with an optional `response` fragment and its `done` flag
(`chunk_data.get('done', False)`). -/
inductive Chunk where
  | malformed
  | data (response : Option String) (done : Bool)
  deriving DecidableEq, Repr

/-- How the chunk-consumption loop ended. -/
inductive StreamResult where
  /-- Flag `stop_review_flag` observed set: the loop returns `""` at once. -/
  | cancelled
  /-- Break at a chunk whose `done` flag is true; carries `full_response`. -/
  | finishedDone (text : String)
  /-- the connection closed without a `done` chunk; carries `full_response`. -/
  | exhausted (text : String)
  deriving DecidableEq, Repr

/-- The loop of `_call_ollama_streaming`: check the stop flag before each
line, skip malformed lines, append each `response` fragment to the
accumulator in arrival order, and `break` when `done` is true. -/
def consumeStream (cancel : Bool) : List Chunk → String → StreamResult
  | [], acc => StreamResult.exhausted acc
  | c :: rest, acc =>
      if cancel then StreamResult.cancelled
      else
        match c with
        | Chunk.malformed => consumeStream cancel rest acc
        | Chunk.data response done =>
            let acc := acc ++ response.getD ""
            if done then StreamResult.finishedDone acc else consumeStream cancel rest acc

/-- HTTP world for one streaming attempt: the outcome of the POST itself,
the NDJSON lines the server delivers when the POST yields a 2xx response,
and whether the connection errors out mid-iteration after those lines
(raising out of `iter_lines` before the loop finds a `done` chunk). -/
structure StreamEnv where
  request : HttpOutcome
  chunks : List Chunk
  midStreamError : Bool

/-- Shallow embedding of `_call_ollama_streaming` (lines 1503-1570):
POST `{model, prompt, stream: True}` with `timeout=(10, 120)`, call
`raise_for_status()`, then run the consumption loop.  `Except.error` is an
exception escaping the method; `Except.ok` its return value (`""` when the
stop flag cut the loop short). -/
def callOllamaStreaming (cancel : Bool) (env : StreamEnv) (model prompt : String) :
    Except OllamaError String × List HttpCall :=
  let call := HttpCall.postGenerate model prompt true 10 120
  match env.request with
  | HttpOutcome.connError => (Except.error OllamaError.connError, [call])
  | HttpOutcome.timeout => (Except.error OllamaError.timeout, [call])
  | HttpOutcome.otherError => (Except.error OllamaError.other, [call])
  | HttpOutcome.ok status =>
      if status < 200 || 300 ≤ status then
        (Except.error (OllamaError.httpStatus status), [call])
      else
        match consumeStream cancel env.chunks "" with
        | StreamResult.cancelled => (Except.ok "", [call])
        | StreamResult.finishedDone text => (Except.ok text, [call])
        | StreamResult.exhausted text =>
            if env.midStreamError then (Except.error OllamaError.other, [call])
            else (Except.ok text, [call])

/-- Shape of the body of a non-streaming response, as probed by
`_call_ollama_standard`: `response.json()` fails, or succeeds without a
`response` field, or succeeds with one. -/
inductive BodyJson where
  | notJson
  | jsonWithoutResponse
  | jsonResponse (text : String)
  deriving DecidableEq, Repr

/-- HTTP world for one blocking attempt. -/
structure BlockEnv where
  request : HttpOutcome
  body : BodyJson

/-- Shallow embedding of `_call_ollama_standard` (lines 1572-1608): check
the stop flag, POST `{model, prompt, stream: False}` with
`timeout=(10, 120)`, `raise_for_status()`, parse the JSON body and extract
its `response` field.  `Except.ok none` is the `return None` taken when the
field is missing; `Except.ok (some "")` with no request is the cancelled
early return. -/
def callOllamaStandard (cancel : Bool) (env : BlockEnv) (model prompt : String) :
    Except OllamaError (Option String) × List HttpCall :=
  if cancel then (Except.ok (some ""), [])
  else
    let call := HttpCall.postGenerate model prompt false 10 120
    match env.request with
    | HttpOutcome.connError => (Except.error OllamaError.connError, [call])
    | HttpOutcome.timeout => (Except.error OllamaError.timeout, [call])
    | HttpOutcome.otherError => (Except.error OllamaError.other, [call])
    | HttpOutcome.ok status =>
        if status < 200 || 300 ≤ status then
          (Except.error (OllamaError.httpStatus status), [call])
        else
          match env.body with
          | BodyJson.notJson => (Except.error OllamaError.jsonDecode, [call])
          | BodyJson.jsonWithoutResponse => (Except.ok none, [call])
          | BodyJson.jsonResponse text => (Except.ok (some text), [call])

/-- HTTP world for the main request section (streaming attempt plus its
blocking fallback). -/
structure MainEnv where
  streamEnv : StreamEnv
  blockEnv : BlockEnv

/-- Lines 1458-1466 of `_call_ollama_api`: try the streaming call; if it
raises any exception, fall back to exactly one standard (blocking) call with
the same model and prompt.  An exception escaping the standard call reaches
the outer handlers of `_call_ollama_api`, all of which `return None`. -/
def mainRequest (cancel : Bool) (env : MainEnv) (model prompt : String) :
    Option String × List HttpCall :=
  match callOllamaStreaming cancel env.streamEnv model prompt with
  | (Except.ok text, calls) => (some text, calls)
  | (Except.error _, calls) =>
      match callOllamaStandard cancel env.blockEnv model prompt with
      | (Except.ok v, calls2) => (v, calls ++ calls2)
      | (Except.error _, calls2) => (none, calls ++ calls2)

/-- HTTP world for one whole `_call_ollama_api` run. -/
structure ApiEnv where
  version : HttpOutcome
  modelTest : HttpOutcome
  main : MainEnv

/-- Shallow embedding of `_call_ollama_api` (lines 1381-1501):
1. return `""` at once if the stop flag is set;
2. `requests.get(version_url, timeout=(5, 10))`: a `ConnectionError` is
   re-raised to the outer handler (`return None`); any other exception type
   is not caught by the inner `try` and also ends in an outer handler
   (`return None`); a `Timeout` or any response (200 or not) merely prints
   and continues;
3. test POST `{model, "Hi", stream: False}` with `timeout=(10, 30)`: a
   `ConnectionError` is re-raised (`return None`); a 404 status means the
   model is missing (`return None`); a `Timeout`, any other exception
   (caught by the inner `except Exception`) or any other status continues;
4. the main request section (`mainRequest`). -/
def callOllamaApi (cancel : Bool) (env : ApiEnv) (model prompt : String) :
    Option String × List HttpCall :=
  if cancel then (some "", [])
  else
    let vCall := HttpCall.getVersion 5 10
    let tCall := HttpCall.postGenerate model "Hi" false 10 30
    let proceed : Option String × List HttpCall :=
      match mainRequest cancel env.main model prompt with
      | (res, calls) => (res, vCall :: tCall :: calls)
    match env.version with
    | HttpOutcome.connError => (none, [vCall])
    | HttpOutcome.otherError => (none, [vCall])
    | _ =>
        match env.modelTest with
        | HttpOutcome.connError => (none, [vCall, tCall])
        | HttpOutcome.ok status =>
            if status = 404 then (none, [vCall, tCall]) else proceed
        | _ => proceed

example :
    callOllamaApi false
      { version := HttpOutcome.ok 200,
        modelTest := HttpOutcome.ok 200,
        main :=
          { streamEnv :=
              { request := HttpOutcome.ok 200,
                chunks := [Chunk.data (some "hello") false, Chunk.data none true],
                midStreamError := false },
            blockEnv := { request := HttpOutcome.connError, body := BodyJson.notJson } } }
      "m" "p" =
    (some "hello",
     [HttpCall.getVersion 5 10, HttpCall.postGenerate "m" "Hi" false 10 30,
      HttpCall.postGenerate "m" "p" true 10 120]) := by
  decide

/-! ## Orchestrator: `_run_review` -/

/-- The fixed part of `AI_PROMPT_TEMPLATE` (lines 149-162) before the
`{diff}` placeholder. -/
def aiPromptPrefix : String :=
  "\nYou are an expert code reviewer. Analyze the following code changes (diff format).\nIdentify potential bugs, security vulnerabilities, performance issues, and suggest improvements\nbased on best practices. Focus on the *newly added or modified lines*.\nProvide concise, actionable feedback. If no issues, state 'No major issues found.'.\n\nConsider the context of a C# and SQL development environment.\nThe feedback should be formatted clearly, focusing on specific lines if possible.\n---\nDiff:\n"

/-- The fixed part of `AI_PROMPT_TEMPLATE` after the `{diff}` placeholder. -/
def aiPromptSuffix : String := "\n---\nReview:\n"

/-- Substitution `AI_PROMPT_TEMPLATE.format(diff=pr_diff)` (line 1179). -/
def aiPrompt (diff : String) : String := aiPromptPrefix ++ diff ++ aiPromptSuffix

/-- Terminal outcome of one `_run_review` run, read off from the status it
leaves behind: "Review Complete" / "Review Finished (No Diff)" / the
stop-button "Review stopped" / "Review Failed" or "An Error Occurred". -/
inductive Outcome where
  | completed (text : String)
  | noDiff
  | cancelled
  | failed
  deriving DecidableEq, Repr

/-- External world for one `_run_review` run.  `chdirFails` models
`os.chdir(repo_path)` raising inside the `try` block (e.g. the repository
directory was removed between validation and the run). -/
structure RunEnv where
  git : GitEnv
  available : List String
  api : ApiEnv
  chdirFails : Bool

/-- The `try`/`except` body of `_run_review` (lines 1090-1236).  Mirrors the
source: save nothing (the caller saved `original_cwd`), `os.chdir(repo_path)`,
then checkpoints on the stop flag around each step:

* stop flag set at a checkpoint: plain `return`; the stop handler already
  rendered "Review stopped", i.e. the `cancelled` outcome;
* `pr_diff = self._get_git_diff(target_branch, source_branch)` — note the
  argument order at line 1138: the GUI target branch is the `base_branch`
  parameter and the GUI source branch the `target_commit` parameter;
* `if not pr_diff:` — both `None` (a `_get_git_diff` failure) and the empty
  string take this branch: "Review Finished (No Diff)" (lines 1148-1154);
* otherwise build the prompt and call `_call_ollama_api`;
* `if ai_feedback:` — a non-empty string renders results ("Review
  Complete"); `None` or `""` renders "Review Failed";
* any exception is caught at line 1230: "An Error Occurred" unless the stop
  flag is set (error display suppressed, the run counts as stopped).

The fourth component is the process working directory at the moment the
body exits (normally or exceptionally): `repoPath` whenever the `chdir`
took effect, `origCwd` if the `chdir` itself raised. -/
def runReviewBody (cancel : Bool) (env : RunEnv) (origCwd repoPath : String)
    (sourceBranch targetBranch model : String) :
    Outcome × List GitCall × List HttpCall × String :=
  if env.chdirFails then
    ((if cancel then Outcome.cancelled else Outcome.failed), [], [], origCwd)
  else if cancel then
    (Outcome.cancelled, [], [], repoPath)
  else
    match getGitDiffResult env.git env.available targetBranch sourceBranch with
    | (diffRes, gcalls) =>
        match diffRes.toOption with
        | none => (Outcome.noDiff, gcalls, [], repoPath)
        | some d =>
            if d = "" then (Outcome.noDiff, gcalls, [], repoPath)
            else
              match callOllamaApi cancel env.api model (aiPrompt d) with
              | (feedback, hcalls) =>
                  match feedback with
                  | none => (Outcome.failed, gcalls, hcalls, repoPath)
                  | some t =>
                      if t = "" then (Outcome.failed, gcalls, hcalls, repoPath)
                      else (Outcome.completed t, gcalls, hcalls, repoPath)

/-- Result of one whole `_run_review` run, traces included. -/
structure RunResult where
  outcome : Outcome
  gitCalls : List GitCall
  httpCalls : List HttpCall
  /-- the process working directory after the run returns. -/
  finalCwd : String
  deriving DecidableEq, Repr

/-- Shallow embedding of `_run_review` (lines 1085-1242):
`original_cwd = os.getcwd()`, run the body, and in the `finally` clause
`os.chdir(original_cwd)` — the body's exit working directory (the fourth
component of `runReviewBody`) is discarded and replaced by `origCwd`. -/
def runReview (cancel : Bool) (env : RunEnv) (origCwd repoPath : String)
    (sourceBranch targetBranch model : String) : RunResult :=
  { outcome := (runReviewBody cancel env origCwd repoPath sourceBranch targetBranch model).1,
    gitCalls := (runReviewBody cancel env origCwd repoPath sourceBranch targetBranch model).2.1,
    httpCalls := (runReviewBody cancel env origCwd repoPath sourceBranch targetBranch model).2.2.1,
    finalCwd := origCwd }

/-! ## GUI single-flight discipline: `start_review_thread` / `stop_review` -/

/-- User-interface events that touch the review button or the worker
thread. -/
inductive UiEvent where
  /-- a click on the "Start AI Review" button; `validationOk` records
  whether the input validation at the top of `start_review_thread`
  (lines 1007-1026) passes. -/
  | startClick (validationOk : Bool)
  /-- the worker thread reaches its `finally` clause with the stop flag
  clear: `_reset_review_ui` (lines 1237-1240). -/
  | runFinished
  /-- a click on the stop button while a run is in flight: `stop_review`
  sets the flag and calls `_reset_review_ui` (lines 1050-1074); the run is
  terminal (`Cancelled`) from the state machine's point of view. -/
  | stopClick
  deriving DecidableEq, Repr

/-- The part of the GUI state that governs single-flight: whether the
review button accepts clicks (`RoundedButton.is_disabled` negated) and
whether a run is in flight (between `threading.Thread(...).start()` and the
terminal `_reset_review_ui`). -/
structure UiState where
  reviewEnabled : Bool
  running : Bool
  deriving DecidableEq, Repr

/-- One event step.  The second component records whether this event
launched a new worker thread.

* `startClick`: `RoundedButton._on_click` (lines 71-74) invokes the command
  only when the button is not disabled; `start_review_thread` then either
  rejects the inputs (an error dialog, no state change) or disables the
  button (line 1039) and starts the thread (line 1048);
* `runFinished` / `stopClick`: `_reset_review_ui` re-enables the button
  (line 1079) and clears `review_thread`; outside a run both are no-ops
  (`stop_review` checks `review_thread.is_alive()`). -/
def uiStep (s : UiState) (e : UiEvent) : UiState × Bool :=
  match e with
  | UiEvent.startClick validationOk =>
      if s.reviewEnabled then
        if validationOk then ({ reviewEnabled := false, running := true }, true)
        else (s, false)
      else (s, false)
  | UiEvent.runFinished =>
      if s.running then ({ reviewEnabled := true, running := false }, false) else (s, false)
  | UiEvent.stopClick =>
      if s.running then ({ reviewEnabled := true, running := false }, false) else (s, false)

/-- The state after the branches are loaded and before any review: button
enabled (line 790), no run in flight. -/
def uiInit : UiState := { reviewEnabled := true, running := false }

/-- The GUI state after a sequence of events starting from `uiInit`. -/
def uiRun (events : List UiEvent) : UiState :=
  events.foldl (fun s e => (uiStep s e).1) uiInit

/-! ## Concrete environments used by witnesses and counterexamples -/

/-- A git world with two local branches whose histories are unrelated: the
merge-base tool reports no merge base (non-zero exit). -/
def gitEnvNoAncestor : GitEnv :=
  { localBranches := ["main", "feature"],
    mergeBase := fun _ _ => none,
    diffOut := fun _ _ => none }

/-- A git world with a single local branch `main`; any git command run on
another ref exits non-zero. -/
def gitEnvMainOnly : GitEnv :=
  { localBranches := ["main"],
    mergeBase := fun _ _ => none,
    diffOut := fun _ _ => none }

/-- An HTTP world with the endpoint completely down: every request raises a
connection error. -/
def apiEnvUnreachable : ApiEnv :=
  { version := HttpOutcome.connError,
    modelTest := HttpOutcome.connError,
    main :=
      { streamEnv := { request := HttpOutcome.connError, chunks := [], midStreamError := false },
        blockEnv := { request := HttpOutcome.connError, body := BodyJson.notJson } } }

/-- A main-request HTTP world where both the streaming attempt and the
blocking fallback raise connection errors. -/
def mainEnvBothFail : MainEnv := apiEnvUnreachable.main

/-- A main-request HTTP world that streams one fragment and finishes. -/
def mainEnvStreamOk : MainEnv :=
  { streamEnv :=
      { request := HttpOutcome.ok 200,
        chunks := [Chunk.data (some "fine") false, Chunk.data none true],
        midStreamError := false },
    blockEnv := { request := HttpOutcome.ok 200, body := BodyJson.jsonResponse "fine" } }

/-- An HTTP world whose version pre-flight raises a connection error. -/
def apiEnvVersionDown : ApiEnv :=
  { version := HttpOutcome.connError, modelTest := HttpOutcome.ok 200, main := mainEnvStreamOk }

/-- An HTTP world whose version pre-flight times out and whose model-test
pre-flight raises a connection error. -/
def apiEnvTestDown : ApiEnv :=
  { version := HttpOutcome.timeout, modelTest := HttpOutcome.connError, main := mainEnvStreamOk }

/-- An HTTP world whose version pre-flight answers 200 and whose model-test
pre-flight then raises a connection error ("Connection lost during model
test"). -/
def apiEnvTestDownAfterOk : ApiEnv :=
  { version := HttpOutcome.ok 200, modelTest := HttpOutcome.connError, main := mainEnvStreamOk }

/-- An HTTP world where both pre-flight calls time out and the main request
streams successfully. -/
def apiEnvPreflightTimeouts : ApiEnv :=
  { version := HttpOutcome.timeout, modelTest := HttpOutcome.timeout, main := mainEnvStreamOk }

/-- A run environment in which DiffResolver fails (the requested base
branch does not exist); the HTTP world is unreachable, which lets the
traces show that it was never consulted. -/
def runEnvDiffFails : RunEnv :=
  { git := gitEnvMainOnly, available := ["main"], api := apiEnvUnreachable, chdirFails := false }

/-! ## Helper lemmas -/

/-- The streaming attempt issues exactly one HTTP request, the streaming
POST with timeouts (10, 120), whatever happens afterwards. -/
theorem callOllamaStreaming_calls (cancel : Bool) (env : StreamEnv) (model prompt : String) :
    (callOllamaStreaming cancel env model prompt).2
      = [HttpCall.postGenerate model prompt true 10 120] := by
  unfold callOllamaStreaming
  cases env.request with
  | connError => rfl
  | timeout => rfl
  | otherError => rfl
  | ok status =>
      dsimp only
      split
      · rfl
      · cases consumeStream cancel env.chunks "" with
        | cancelled => rfl
        | finishedDone text => rfl
        | exhausted text => dsimp only; split <;> rfl

/-- The blocking attempt with the stop flag clear issues exactly one HTTP
request, the non-streaming POST with timeouts (10, 120). -/
theorem callOllamaStandard_calls (env : BlockEnv) (model prompt : String) :
    (callOllamaStandard false env model prompt).2
      = [HttpCall.postGenerate model prompt false 10 120] := by
  unfold callOllamaStandard
  rw [if_neg (by simp : ¬ (false = true))]
  cases env.request with
  | connError => rfl
  | timeout => rfl
  | otherError => rfl
  | ok status => cases env.body <;> dsimp only <;> split <;> rfl

/-- The consumption loop over well-formed fragments followed by a final
`done` chunk accumulates the fragments onto `acc` in arrival order. -/
theorem consumeStream_fragments_done (frags : List String) :
    ∀ acc : String,
      consumeStream false
        ((frags.map fun f => Chunk.data (some f) false) ++ [Chunk.data none true]) acc
        = StreamResult.finishedDone (frags.foldl (fun r s => r ++ s) acc) := by
  induction frags with
  | nil =>
      intro acc
      simp [consumeStream]
  | cons f rest ih =>
      intro acc
      simp [consumeStream, ih]

/-! ## Claim C4 -/

/-- C4: whenever the streaming attempt of ReviewInvoker raises any error,
exactly one fallback blocking request with the same model and prompt is
made (the full trace of the main-request section is the streaming POST
followed by the single blocking POST), and a failure of that blocking
request is terminal: the section returns `None`, with no further request. -/
theorem stream_error_single_blocking_fallback (env : MainEnv) (model prompt : String)
    (h : ∃ e, (callOllamaStreaming false env.streamEnv model prompt).1 = Except.error e) :
    (mainRequest false env model prompt).2
      = [HttpCall.postGenerate model prompt true 10 120,
         HttpCall.postGenerate model prompt false 10 120]
    ∧ ∀ e, (callOllamaStandard false env.blockEnv model prompt).1 = Except.error e →
        (mainRequest false env model prompt).1 = none := by
  obtain ⟨e, he⟩ := h
  have hsc := callOllamaStreaming_calls false env.streamEnv model prompt
  have hbc := callOllamaStandard_calls env.blockEnv model prompt
  have hs : callOllamaStreaming false env.streamEnv model prompt
      = (Except.error e, [HttpCall.postGenerate model prompt true 10 120]) := by
    rw [Prod.ext_iff]; exact ⟨he, hsc⟩
  constructor
  · unfold mainRequest
    rw [hs]
    rcases hb : callOllamaStandard false env.blockEnv model prompt with ⟨rb, cb⟩
    have hcb : cb = [HttpCall.postGenerate model prompt false 10 120] := by
      rw [hb] at hbc; exact hbc
    cases rb <;> simp [hcb]
  · intro e2 he2
    have hb : callOllamaStandard false env.blockEnv model prompt
        = (Except.error e2, [HttpCall.postGenerate model prompt false 10 120]) := by
      rw [Prod.ext_iff]; exact ⟨he2, hbc⟩
    unfold mainRequest
    rw [hs, hb]

/-- C4 witness: with the endpoint fully down, the main-request section
issues the streaming POST then the single blocking POST and returns
`None`. -/
theorem stream_error_single_blocking_fallback_witness :
    (mainRequest false mainEnvBothFail "m" "p").2
      = [HttpCall.postGenerate "m" "p" true 10 120,
         HttpCall.postGenerate "m" "p" false 10 120]
    ∧ (mainRequest false mainEnvBothFail "m" "p").1 = none := by
  have h := stream_error_single_blocking_fallback mainEnvBothFail "m" "p"
    ⟨OllamaError.connError, rfl⟩
  exact ⟨h.1, h.2 OllamaError.connError rfl⟩

/-! ## Claim C5 -/

/-- C5: the streaming reader concatenates the `response` fragments of the
newline-delimited JSON chunks in arrival order until a chunk with
`done = true`; in particular the simulated stream "Looks", " ", "good."
each with `done=false` followed by a final `done=true` yields exactly
"Looks good.". -/
theorem streaming_concatenates_fragments :
    (callOllamaStreaming false
      { request := HttpOutcome.ok 200,
        chunks := [Chunk.data (some "Looks") false, Chunk.data (some " ") false,
                   Chunk.data (some "good.") false, Chunk.data none true],
        midStreamError := false } "m" "p").1 = Except.ok "Looks good."
    ∧ ∀ frags : List String,
        consumeStream false
          ((frags.map fun f => Chunk.data (some f) false) ++ [Chunk.data none true]) ""
          = StreamResult.finishedDone (String.join frags) := by
  constructor
  · rfl
  · intro frags
    exact consumeStream_fragments_done frags ""

/-! ## Claim C9 -/

/-- C9 counterexample: the claim requires a single-digit connection
timeout, but the connection timeout recorded on both main-mode requests is
10 seconds, and 10 is not single-digit. -/
theorem timeout_policy_counterexample :
    (mainRequest false mainEnvBothFail "m" "p").2
      = [HttpCall.postGenerate "m" "p" true 10 120,
         HttpCall.postGenerate "m" "p" false 10 120]
    ∧ ¬ (10 : Nat) ≤ 9 :=
  ⟨rfl, by decide⟩

/-- C9 amended: ReviewInvoker applies the same timeout policy to both
transfer modes — a 10-second connection timeout (not single-digit) and a
120-second complete-response timeout, identical for the streaming attempt
and the blocking fallback: every request the main-request section issues is
a POST of the given model and prompt with timeouts (10, 120). -/
theorem timeout_policy_identical (env : MainEnv) (model prompt : String) (c : HttpCall)
    (h : c ∈ (mainRequest false env model prompt).2) :
    c = HttpCall.postGenerate model prompt true 10 120
    ∨ c = HttpCall.postGenerate model prompt false 10 120 := by
  have hsc := callOllamaStreaming_calls false env.streamEnv model prompt
  have hbc := callOllamaStandard_calls env.blockEnv model prompt
  unfold mainRequest at h
  rcases hs : callOllamaStreaming false env.streamEnv model prompt with ⟨rs, cs⟩
  rw [hs] at h hsc
  simp only at hsc
  cases rs with
  | ok text =>
      simp only at h
      rw [hsc] at h
      simp at h
      exact Or.inl h
  | error e =>
      rcases hb : callOllamaStandard false env.blockEnv model prompt with ⟨rb, cb⟩
      rw [hb] at h hbc
      simp only at hbc
      cases rb <;>
        · simp only at h
          rw [hsc, hbc] at h
          simp at h
          exact h

/-- C9 witness: the streaming request of a concrete run is among the
issued calls and carries the (10, 120) timeout pair. -/
theorem timeout_policy_identical_witness :
    HttpCall.postGenerate "m" "p" true 10 120
        = HttpCall.postGenerate "m" "p" true 10 120
      ∨ HttpCall.postGenerate "m" "p" true 10 120
        = HttpCall.postGenerate "m" "p" false 10 120 := by
  exact timeout_policy_identical mainEnvBothFail "m" "p"
    (HttpCall.postGenerate "m" "p" true 10 120) (by decide)

/-! ## Claim C10 -/

/-- C10: `_call_ollama_api` always performs the two pre-flight HTTP calls â
the GET on the version URL and the small "Hi" test POST â before the main
review request (first conjunct: the request trace is either an abort prefix
or both pre-flights followed by the main-request section's calls); a
connection error raised by the version pre-flight aborts the run with
`None` and no main request (second conjunct); whenever the version
pre-flight continues (any response, 200 or not, or a timeout â everything
except its two raise-to-outer-handler exits), a connection error raised by
the model-test pre-flight aborts the run with `None` after exactly the two
pre-flight calls (third conjunct); and whenever both pre-flights continue
(any outcome other than a connection error, an exception of another type
on the version call, or a 404 model-test response â in particular when
either pre-flight times out), the main request proceeds (fourth
conjunct). -/
theorem preflight_policy (env : ApiEnv) (model prompt : String) :
    ((callOllamaApi false env model prompt).2 = [HttpCall.getVersion 5 10]
      ∨ (callOllamaApi false env model prompt).2
          = [HttpCall.getVersion 5 10, HttpCall.postGenerate model "Hi" false 10 30]
      ∨ (callOllamaApi false env model prompt).2
          = HttpCall.getVersion 5 10 :: HttpCall.postGenerate model "Hi" false 10 30
              :: (mainRequest false env.main model prompt).2)
    ∧ (env.version = HttpOutcome.connError →
        callOllamaApi false env model prompt = (none, [HttpCall.getVersion 5 10]))
    ∧ (env.version ≠ HttpOutcome.connError → env.version ≠ HttpOutcome.otherError →
        env.modelTest = HttpOutcome.connError →
        callOllamaApi false env model prompt
          = (none, [HttpCall.getVersion 5 10, HttpCall.postGenerate model "Hi" false 10 30]))
    ∧ (env.version ≠ HttpOutcome.connError → env.version ≠ HttpOutcome.otherError →
        env.modelTest ≠ HttpOutcome.connError →
        (∀ s, env.modelTest = HttpOutcome.ok s → s ≠ 404) →
        callOllamaApi false env model prompt
          = ((mainRequest false env.main model prompt).1,
             HttpCall.getVersion 5 10 :: HttpCall.postGenerate model "Hi" false 10 30
               :: (mainRequest false env.main model prompt).2)) := by
  rcases hm : mainRequest false env.main model prompt with ⟨mr, mc⟩
  refine ⟨?_, ?_, ?_, ?_⟩
  · unfold callOllamaApi
    rw [if_neg (by simp : ¬ (false = true))]
    cases env.version with
    | connError => exact Or.inl rfl
    | otherError => exact Or.inl rfl
    | ok vs =>
        dsimp only
        cases env.modelTest with
        | connError => exact Or.inr (Or.inl rfl)
        | ok ts =>
            dsimp only
            split
            · exact Or.inr (Or.inl rfl)
            · rw [hm]; exact Or.inr (Or.inr rfl)
        | timeout => rw [hm]; exact Or.inr (Or.inr rfl)
        | otherError => rw [hm]; exact Or.inr (Or.inr rfl)
    | timeout =>
        dsimp only
        cases env.modelTest with
        | connError => exact Or.inr (Or.inl rfl)
        | ok ts =>
            dsimp only
            split
            · exact Or.inr (Or.inl rfl)
            · rw [hm]; exact Or.inr (Or.inr rfl)
        | timeout => rw [hm]; exact Or.inr (Or.inr rfl)
        | otherError => rw [hm]; exact Or.inr (Or.inr rfl)
  · intro hv
    unfold callOllamaApi
    rw [if_neg (by simp : ¬ (false = true)), hv]
  · intro hv1 hv2 ht
    unfold callOllamaApi
    rw [if_neg (by simp : ¬ (false = true))]
    cases hveq : env.version with
    | connError => exact absurd hveq hv1
    | otherError => exact absurd hveq hv2
    | ok vs => dsimp only; rw [ht]
    | timeout => dsimp only; rw [ht]
  · intro hv1 hv2 ht1 ht2
    unfold callOllamaApi
    rw [if_neg (by simp : ¬ (false = true))]
    cases hveq : env.version with
    | connError => exact absurd hveq hv1
    | otherError => exact absurd hveq hv2
    | ok vs =>
        dsimp only
        cases hteq : env.modelTest with
        | connError => exact absurd hteq ht1
        | ok ts =>
            dsimp only
            rw [if_neg (ht2 ts hteq), hm]
        | timeout => rw [hm]
        | otherError => rw [hm]
    | timeout =>
        dsimp only
        cases hteq : env.modelTest with
        | connError => exact absurd hteq ht1
        | ok ts =>
            dsimp only
            rw [if_neg (ht2 ts hteq), hm]
        | timeout => rw [hm]
        | otherError => rw [hm]

/-- C10 witness: a version-URL connection error aborts with only the GET
issued; a model-test connection error aborts with exactly the two
pre-flights issued, both when the version call answered 200 and when it
timed out; with both pre-flights timing out, the main streaming request is
issued after them and its text is returned. -/
theorem preflight_policy_witness :
    callOllamaApi false apiEnvVersionDown "m" "p" = (none, [HttpCall.getVersion 5 10])
    ∧ callOllamaApi false apiEnvTestDownAfterOk "m" "p"
        = (none, [HttpCall.getVersion 5 10, HttpCall.postGenerate "m" "Hi" false 10 30])
    ∧ callOllamaApi false apiEnvTestDown "m" "p"
        = (none, [HttpCall.getVersion 5 10, HttpCall.postGenerate "m" "Hi" false 10 30])
    ∧ callOllamaApi false apiEnvPreflightTimeouts "m" "p"
        = (some "fine",
           [HttpCall.getVersion 5 10, HttpCall.postGenerate "m" "Hi" false 10 30,
            HttpCall.postGenerate "m" "p" true 10 120]) := by
  refine ⟨(preflight_policy apiEnvVersionDown "m" "p").2.1 rfl,
          (preflight_policy apiEnvTestDownAfterOk "m" "p").2.2.1 (by decide) (by decide) rfl,
          (preflight_policy apiEnvTestDown "m" "p").2.2.1 (by decide) (by decide) rfl, ?_⟩
  have h := (preflight_policy apiEnvPreflightTimeouts "m" "p").2.2.2 (by decide) (by decide)
    (by decide) (by intro s hs; simp [apiEnvPreflightTimeouts] at hs)
  rw [h]
  rfl

/-! ## Claim C2 -/

/-- C2 counterexample: `main` and `feature` both exist locally but their
histories are unrelated, so the merge-base tool reports no merge base; the
failure surfaced is the generic git-command-failed error (the
`except subprocess.CalledProcessError` handler printing `e.cmd`) for the
merge-base command — contradicting "never with a generic git-command-failed
error"; no specific NoCommonAncestor error exists in the code. -/
theorem no_ancestor_counterexample :
    (getGitDiffResult gitEnvNoAncestor ["main", "feature"] "main" "feature").1
      = Except.error (GitDiffError.gitCommandFailed (GitCall.mergeBase "main" "feature")) := rfl

/-- C2 amended: for every pair of refs that passes the verification steps
and has no merge base, DiffResolver fails with the generic
`GitCommandFailed` error carrying the `git merge-base` command; the code
has no NoCommonAncestor-specific error. -/
theorem no_ancestor_generic_failure (env : GitEnv) (avail : List String) (b t : String)
    (hb : b = "HEAD" ∨ b ∈ env.localBranches)
    (ht : t = "HEAD" ∨ t ∉ avail ∨ t ∈ env.localBranches)
    (hmb : env.mergeBase b t = none) :
    (getGitDiffResult env avail b t).1
      = Except.error (GitDiffError.gitCommandFailed (GitCall.mergeBase b t)) := by
  have h1 : (b != "HEAD" && !(env.localBranches.contains b)) = false := by
    rcases hb with rfl | hb
    · simp
    · simp [hb]
  have h2 : ((t != "HEAD" && avail.contains t) && !(env.localBranches.contains t)) = false := by
    rcases ht with rfl | ht | ht
    · simp
    · simp [ht]
    · simp [ht]
  simp only [getGitDiffResult, h1, h2]
  simp [hmb]

/-- C2 witness: the amended statement applied to the concrete unrelated
histories world. -/
theorem no_ancestor_generic_failure_witness :
    (getGitDiffResult gitEnvNoAncestor ["feature", "main"] "feature" "main").1
      = Except.error (GitDiffError.gitCommandFailed (GitCall.mergeBase "feature" "main")) := by
  exact no_ancestor_generic_failure gitEnvNoAncestor ["feature", "main"] "feature" "main"
    (Or.inr (by decide)) (Or.inr (Or.inr (by decide))) rfl

/-! ## Claim C3 -/

/-- C3 counterexample: the target `ghost` is neither `HEAD` nor a local
branch, yet `_get_git_diff` issues no verification call for it (the trace
contains no `rev-parse --verify` for `ghost`) and proceeds straight to the
merge-base computation, which fails with the generic git-command-failed
error instead of RefNotFound(`ghost`) — because `ghost` does not appear
among the GUI dropdown labels, the only case the code checks. -/
theorem target_unverified_counterexample :
    (getGitDiffResult gitEnvMainOnly ["main"] "main" "ghost").1
      = Except.error (GitDiffError.gitCommandFailed (GitCall.mergeBase "main" "ghost"))
    ∧ (getGitDiffResult gitEnvMainOnly ["main"] "main" "ghost").2
      = [GitCall.revParseVerify "main", GitCall.mergeBase "main" "ghost"] :=
  ⟨rfl, rfl⟩

/-- C3 amended: a target ref different from `HEAD` is verified only when it
appears among the GUI dropdown labels: in that case a missing local branch
fails with RefNotFound(target) and no merge-base call is made (first
conjunct); a target outside the dropdown list is not verified at all and
the merge-base computation is attempted directly (second conjunct). -/
theorem target_verified_only_when_listed :
    (∀ (env : GitEnv) (avail : List String) (b t : String),
       t ≠ "HEAD" → t ∈ avail → t ∉ env.localBranches →
       (b = "HEAD" ∨ b ∈ env.localBranches) →
       (getGitDiffResult env avail b t).1 = Except.error (GitDiffError.refNotFound t)
       ∧ GitCall.mergeBase b t ∉ (getGitDiffResult env avail b t).2)
    ∧ (∀ (env : GitEnv) (avail : List String) (b t : String),
       t ≠ "HEAD" → t ∉ avail → b ≠ t →
       (b = "HEAD" ∨ b ∈ env.localBranches) →
       GitCall.revParseVerify t ∉ (getGitDiffResult env avail b t).2
       ∧ GitCall.mergeBase b t ∈ (getGitDiffResult env avail b t).2) := by
  constructor
  · intro env avail b t ht1 ht2 ht3 hb
    have h1 : (b != "HEAD" && !(env.localBranches.contains b)) = false := by
      rcases hb with rfl | hb
      · simp
      · simp [hb]
    have h2 : ((t != "HEAD" && avail.contains t) && !(env.localBranches.contains t)) = true := by
      simp [ht1, ht2, ht3]
    have h3 : (t != "HEAD" && avail.contains t) = true := by
      simp [ht1, ht2]
    have h4 : (!(env.localBranches.contains t)) = true := by
      simp [ht3]
    constructor
    · simp only [getGitDiffResult, h1, h2]
      simp
    · simp only [getGitDiffResult, h1, h3, Bool.true_and, h4]
      by_cases hbh : b = "HEAD" <;> simp [hbh]
  · intro env avail b t ht1 ht2 hbt hb
    have h1 : (b != "HEAD" && !(env.localBranches.contains b)) = false := by
      rcases hb with rfl | hb
      · simp
      · simp [hb]
    have h3 : (t != "HEAD" && avail.contains t) = false := by
      simp [ht2]
    simp only [getGitDiffResult, h1, h3, Bool.false_and]
    cases hmb : env.mergeBase b t with
    | none =>
        constructor
        · by_cases hbh : b = "HEAD" <;> simp [hbh, Ne.symm hbt]
        · by_cases hbh : b = "HEAD" <;> simp [hbh]
    | some mbOut =>
        cases hd : env.diffOut (pyStrip mbOut) t with
        | none =>
            constructor
            · by_cases hbh : b = "HEAD" <;> simp [hbh, hd, Ne.symm hbt]
            · by_cases hbh : b = "HEAD" <;> simp [hbh, hd]
        | some d =>
            constructor
            · by_cases hbh : b = "HEAD" <;> simp [hbh, hd, Ne.symm hbt]
            · by_cases hbh : b = "HEAD" <;> simp [hbh, hd]

/-- C3 witness: both parts of the amended statement at concrete worlds —
`lost` is listed in the dropdown but is not a local branch, so the result
is RefNotFound with no merge-base call; `ghost` is not listed, so no
verification call for it is issued and merge-base is attempted. -/
theorem target_verified_only_when_listed_witness :
    ((getGitDiffResult gitEnvMainOnly ["main", "lost"] "main" "lost").1
        = Except.error (GitDiffError.refNotFound "lost")
      ∧ GitCall.mergeBase "main" "lost"
          ∉ (getGitDiffResult gitEnvMainOnly ["main", "lost"] "main" "lost").2)
    ∧ (GitCall.revParseVerify "ghost"
          ∉ (getGitDiffResult gitEnvMainOnly ["main"] "main" "ghost").2
      ∧ GitCall.mergeBase "main" "ghost"
          ∈ (getGitDiffResult gitEnvMainOnly ["main"] "main" "ghost").2) := by
  constructor
  · exact target_verified_only_when_listed.1 gitEnvMainOnly ["main", "lost"] "main" "lost"
      (by decide) (by decide) (by decide) (Or.inr (by decide))
  · exact target_verified_only_when_listed.2 gitEnvMainOnly ["main"] "main" "ghost"
      (by decide) (by decide) (by decide) (Or.inr (by decide))

/-! ## Claim C1 -/

/-- C1 counterexample: a run whose DiffResolver call fails outright (the
requested base branch `missing` does not exist, so `_get_git_diff` returns
`None` through its RefNotFound path, not an empty diff) still reaches the
terminal NoDiff outcome — "Review Finished (No Diff)" — and never the
Failed outcome, contradicting "a failure of DiffResolver reaches Failed,
never NoDiff". -/
theorem nodiff_failure_counterexample :
    (getGitDiffResult runEnvDiffFails.git runEnvDiffFails.available "missing" "main").1
      = Except.error (GitDiffError.refNotFound "missing")
    ∧ (runReview false runEnvDiffFails "/home/user" "/repo" "main" "missing" "model").outcome
      = Outcome.noDiff
    ∧ (runReview false runEnvDiffFails "/home/user" "/repo" "main" "missing" "model").outcome
      ≠ Outcome.failed := by
  exact ⟨rfl, rfl, by decide⟩

/-- C1 amended: `_run_review` does not distinguish an empty diff from a
DiffResolver failure: whenever `_get_git_diff` hands back `None` (a
failure) or the empty string (no differences), the `if not pr_diff` branch
is taken, so the run reaches the terminal NoDiff outcome and no AI call is
made; in particular a DiffResolver failure never reaches Failed. -/
theorem nodiff_conflates_empty_and_failure (env : RunEnv) (origCwd repoPath s t m : String)
    (henv : env.chdirFails = false)
    (h : (getGitDiffResult env.git env.available t s).1.toOption = none
         ∨ (getGitDiffResult env.git env.available t s).1.toOption = some "") :
    (runReview false env origCwd repoPath s t m).outcome = Outcome.noDiff
    ∧ (runReview false env origCwd repoPath s t m).httpCalls = [] := by
  have hb : runReviewBody false env origCwd repoPath s t m
      = (Outcome.noDiff, (getGitDiffResult env.git env.available t s).2, [], repoPath) := by
    unfold runReviewBody
    rw [henv]
    rw [if_neg (by simp : ¬ (false = true)), if_neg (by simp : ¬ (false = true))]
    rcases hg : getGitDiffResult env.git env.available t s with ⟨res, gcalls⟩
    rw [hg] at h
    simp only at h
    dsimp only
    rcases h with h | h
    · rw [h]
    · rw [h]
      simp
  have h1 : (runReview false env origCwd repoPath s t m).outcome
      = (runReviewBody false env origCwd repoPath s t m).1 := rfl
  have h2 : (runReview false env origCwd repoPath s t m).httpCalls
      = (runReviewBody false env origCwd repoPath s t m).2.2.1 := rfl
  rw [h1, h2, hb]
  exact ⟨rfl, rfl⟩

/-- C1 witness: the amended statement at the concrete failing-DiffResolver
run. -/
theorem nodiff_conflates_empty_and_failure_witness :
    (runReview false runEnvDiffFails "/home/user" "/repo" "main" "missing" "model").outcome
      = Outcome.noDiff
    ∧ (runReview false runEnvDiffFails "/home/user" "/repo" "main" "missing" "model").httpCalls
      = [] := by
  exact nodiff_conflates_empty_and_failure runEnvDiffFails "/home/user" "/repo" "main" "missing"
    "model" rfl (Or.inl rfl)

/-! ## Claim C6 -/

/-- C6: when the cancellation flag is already set before `_run_review`
reaches its first checkpoint — hence before DiffResolver is invoked — the
run ends in the Cancelled outcome and no git subprocess call and no HTTP
request is ever issued during the run. -/
theorem cancel_before_diff_no_calls (env : RunEnv) (origCwd repoPath s t m : String) :
    (runReview true env origCwd repoPath s t m).outcome = Outcome.cancelled
    ∧ (runReview true env origCwd repoPath s t m).gitCalls = []
    ∧ (runReview true env origCwd repoPath s t m).httpCalls = [] := by
  have hb : runReviewBody true env origCwd repoPath s t m
      = (Outcome.cancelled, [], [], if env.chdirFails then origCwd else repoPath) := by
    unfold runReviewBody
    cases env.chdirFails <;> simp
  have h1 : (runReview true env origCwd repoPath s t m).outcome
      = (runReviewBody true env origCwd repoPath s t m).1 := rfl
  have h2 : (runReview true env origCwd repoPath s t m).gitCalls
      = (runReviewBody true env origCwd repoPath s t m).2.1 := rfl
  have h3 : (runReview true env origCwd repoPath s t m).httpCalls
      = (runReviewBody true env origCwd repoPath s t m).2.2.1 := rfl
  rw [h1, h2, h3, hb]
  exact ⟨rfl, rfl, rfl⟩

/-! ## Claim C8 -/

/-- The working directory at the body's exit point: moved to the repository
path whenever the `os.chdir(repo_path)` took effect, in every branch of the
body, normal or exceptional. -/
theorem runReviewBody_cwd (cancel : Bool) (env : RunEnv) (origCwd repoPath s t m : String) :
    (runReviewBody cancel env origCwd repoPath s t m).2.2.2
      = (if env.chdirFails then origCwd else repoPath) := by
  unfold runReviewBody
  cases env.chdirFails with
  | true => cases cancel <;> simp
  | false =>
      cases cancel with
      | true => simp
      | false => (repeat' split) <;> simp_all

/-- C8: whatever terminal outcome a run reaches, and even on exceptional
exit, the `finally` clause restores the working directory that was current
before the run (first conjunct); the restoration is not vacuous: the body
exits with the working directory moved to the repository path whenever the
`chdir` into it succeeded (second conjunct). -/
theorem run_restores_cwd (cancel : Bool) (env : RunEnv) (origCwd repoPath s t m : String) :
    (runReview cancel env origCwd repoPath s t m).finalCwd = origCwd
    ∧ (runReviewBody cancel env origCwd repoPath s t m).2.2.2
        = (if env.chdirFails then origCwd else repoPath) :=
  ⟨rfl, runReviewBody_cwd cancel env origCwd repoPath s t m⟩

/-! ## Claim C7 -/

/-- One GUI event preserves the single-flight coupling between the review
button and the in-flight run. -/
theorem uiStep_preserves (s : UiState) (e : UiEvent) (h : s.reviewEnabled = !s.running) :
    (uiStep s e).1.reviewEnabled = !(uiStep s e).1.running := by
  rcases s with ⟨en, run⟩
  simp only at h
  cases e with
  | startClick ok => cases en <;> cases run <;> cases ok <;> simp_all [uiStep]
  | runFinished => cases en <;> cases run <;> simp_all [uiStep]
  | stopClick => cases en <;> cases run <;> simp_all [uiStep]

/-- The single-flight coupling holds after any event sequence from any
state satisfying it. -/
theorem uiRun_invariant (events : List UiEvent) :
    ∀ s : UiState, s.reviewEnabled = !s.running →
      (events.foldl (fun s e => (uiStep s e).1) s).reviewEnabled
        = !(events.foldl (fun s e => (uiStep s e).1) s).running := by
  induction events with
  | nil => intro s h; exact h
  | cons e rest ih => intro s h; exact ih _ (uiStep_preserves s e h)

/-- C7: at most one run is active at a time.  In every state reachable from
the initial GUI state, the review button is enabled exactly when no run is
in flight (so the start action is disabled while a run is in flight and
re-enabled only when the run reaches a terminal outcome), and a start click
arriving while a run is in flight changes nothing and launches no second
worker thread. -/
theorem single_flight (events : List UiEvent) :
    ((uiRun events).reviewEnabled = !(uiRun events).running)
    ∧ ((uiRun events).running = true →
        ∀ validationOk, uiStep (uiRun events) (UiEvent.startClick validationOk)
          = (uiRun events, false)) := by
  have hinv : (uiRun events).reviewEnabled = !(uiRun events).running :=
    uiRun_invariant events uiInit rfl
  refine ⟨hinv, ?_⟩
  intro hrun ok
  rw [hrun] at hinv
  simp only [Bool.not_true] at hinv
  unfold uiStep
  simp [hinv]

/-- C7 witness: after an accepted start click a run is in flight and a
second start click is rejected — the state is unchanged and no second
worker thread is launched. -/
theorem single_flight_witness :
    uiStep (uiRun [UiEvent.startClick true]) (UiEvent.startClick true)
      = (uiRun [UiEvent.startClick true], false) := by
  exact (single_flight [UiEvent.startClick true]).2 rfl true

end PReviewer
